import Mathlib

/-!
# Shallow embedding of the sparky-barcode-scanner pipeline

This file embeds the barcode-to-diary reconciliation pipeline of
src/barcode_scanner_v2.py (the full variant, with USDA enrichment) and the
relevant parts of src/barcode_scanner.py (the simpler variant), and proves
the specification claims about them.

Modelling conventions:
* Python floats are modelled as rationals.  Python's round(x, 2) is modelled
  as rounding 100*x to the nearest integer and dividing by 100; the claims
  below never depend on tie-breaking behaviour at exact .005 boundaries.
* NUTRIENT_MAP in the source is a bijection between OpenFoodFacts field
  names (e.g. "proteins_100g") and the canonical SparkyFitness keys
  (e.g. "protein").  A product's nutriment dictionaries are therefore
  modelled directly as partial maps from the canonical Nutrient key to a
  value; dictionary keys outside the map are never read by the code.
* A Python dict .get(k) returning None is modelled as Option.none.
* HTTP responses are part of the environment: each remote call's response
  is a field of an Env structure, so the pipeline is a pure function of the
  scanned barcode and the environment.
-/

/-- The 17 recognized SparkyFitness nutrient keys (the range of
NUTRIENT_MAP and USDA_NUTRIENT_MAP in the source). -/
inductive Nutrient
  | calories
  | protein
  | carbs
  | fat
  | saturated_fat
  | polyunsaturated_fat
  | monounsaturated_fat
  | trans_fat
  | cholesterol
  | sodium
  | potassium
  | dietary_fiber
  | sugars
  | vitamin_a
  | vitamin_c
  | calcium
  | iron
deriving DecidableEq, Fintype, Repr

/-- Python round(x, 2): round 100*x to the nearest integer, divide by 100. -/
def round2 (q : ℚ) : ℚ := (round (100 * q) : ℤ) / 100

/-- Python truthiness of an optional string combined with a default:
models the idiom (d.get(key) or default), which substitutes the default
both when the key is absent and when its value is the empty string. -/
def orDefault (o : Option String) (d : String) : String :=
  match o with
  | none => d
  | some s => if s.isEmpty then d else s

/-- Python str.isupper restricted to ASCII: at least one letter, and no
lower-case letter. -/
def pyIsUpper (s : String) : Bool :=
  s.data.any Char.isAlpha && s.data.all (fun c => !c.isLower)

/-- Helper for pyTitle: the Bool records whether the previous character was
a letter (i.e. whether we are inside a word). -/
def pyTitleAux : List Char → Bool → List Char
  | [], _ => []
  | c :: cs, prevAlpha =>
    if c.isAlpha then
      (if prevAlpha then c.toLower else c.toUpper) :: pyTitleAux cs true
    else
      c :: pyTitleAux cs false

/-- Python str.title restricted to ASCII: upper-case each letter that starts
a letter run, lower-case the rest. -/
def pyTitle (s : String) : String := ⟨pyTitleAux s.data false⟩

/-- An OpenFoodFacts product object, as read by the pipeline.
nutriments_estimated is Option-wrapped: none models the Python case where
product.get("nutriments_estimated", \x7b\x7d) is absent or empty (falsy), in
which case the gap-filling loop does not run. -/
structure Product where
  product_name : Option String
  brands : Option String
  code : Option String
  nutriments : Nutrient → Option ℚ
  nutriments_estimated : Option (Nutrient → Option ℚ)

/-- The food object built by build_food_suggestion in barcode_scanner_v2.py
(the full variant).  needs_review models custom_nutrients["needs_review"];
it is absent (false) until the review-flag step sets it. -/
structure Suggestion where
  name : String
  brand : String
  barcode : String
  provider_type : String
  shared_with_public : Bool
  serving_size : ℚ
  serving_unit : String
  is_custom : Bool
  nutrients : Nutrient → ℚ
  needs_review : Bool

/-- The food object built by build_food_suggestion in barcode_scanner.py
(the simpler variant): no is_custom field, no review flagging, no
estimated-nutrient fill, no name/brand title-casing. -/
structure SuggestionV1 where
  name : String
  brand : String
  barcode : String
  provider_type : String
  shared_with_public : Bool
  serving_size : ℚ
  serving_unit : String
  nutrients : Nutrient → ℚ

/-- The first nutrient loop of build_food_suggestion (both variants):
suggestion[k] = round(float(val), 2) if val is not None else 0. -/
def measuredNutrients (nutriments : Nutrient → Option ℚ) (k : Nutrient) : ℚ :=
  match nutriments k with
  | some v => round2 v
  | none => 0

/-- The gap-filling loop of build_food_suggestion (v2 only): for each key
still zero, take the estimated value if present and strictly positive. -/
def fillFromEstimated (cur : Nutrient → ℚ) (estimated : Nutrient → Option ℚ)
    (k : Nutrient) : ℚ :=
  if cur k = 0 then
    match estimated k with
    | some v => if 0 < v then round2 v else cur k
    | none => cur k
  else cur k

/-- build_food_suggestion from barcode_scanner_v2.py. -/
def build_food_suggestion (product : Product) : Suggestion :=
  let raw_name := orDefault product.product_name "Unknown Product"
  let raw_brand := orDefault product.brands ""
  let base := measuredNutrients product.nutriments
  { name := if pyIsUpper raw_name then pyTitle raw_name else raw_name
    brand := if pyIsUpper raw_brand then pyTitle raw_brand else raw_brand
    barcode := orDefault product.code ""
    provider_type := "openfoodfacts"
    shared_with_public := false
    serving_size := 100
    serving_unit := "g"
    is_custom := true
    nutrients :=
      match product.nutriments_estimated with
      | some estimated => fillFromEstimated base estimated
      | none => base
    needs_review := false }

/-- build_food_suggestion from barcode_scanner.py (the simpler variant). -/
def build_food_suggestion_v1 (product : Product) : SuggestionV1 :=
  { name := orDefault product.product_name "Unknown Product"
    brand := orDefault product.brands ""
    barcode := orDefault product.code ""
    provider_type := "openfoodfacts"
    shared_with_public := false
    serving_size := 100
    serving_unit := "g"
    nutrients := measuredNutrients product.nutriments }

/-- is_nutrition_complete: any of protein / carbs / fat strictly positive. -/
def is_nutrition_complete (s : Suggestion) : Bool :=
  [Nutrient.protein, Nutrient.carbs, Nutrient.fat].any
    (fun k => decide (0 < s.nutrients k))

/-- USDA_NUTRIENT_MAP: FoodData Central numeric nutrient ids to
SparkyFitness keys. -/
def USDA_NUTRIENT_MAP (nid : ℕ) : Option Nutrient :=
  if nid = 1008 then some .calories
  else if nid = 1003 then some .protein
  else if nid = 1005 then some .carbs
  else if nid = 1004 then some .fat
  else if nid = 1258 then some .saturated_fat
  else if nid = 1293 then some .polyunsaturated_fat
  else if nid = 1292 then some .monounsaturated_fat
  else if nid = 1257 then some .trans_fat
  else if nid = 1253 then some .cholesterol
  else if nid = 1093 then some .sodium
  else if nid = 1092 then some .potassium
  else if nid = 1079 then some .dietary_fiber
  else if nid = 2000 then some .sugars
  else if nid = 1106 then some .vitamin_a
  else if nid = 1162 then some .vitamin_c
  else if nid = 1087 then some .calcium
  else if nid = 1089 then some .iron
  else none

/-- One entry of a USDA food's foodNutrients list. -/
structure UsdaNutrient where
  nutrientId : Option ℕ
  value : Option ℚ

/-- A USDA food as returned by the search endpoint. -/
structure UsdaFood where
  foodNutrients : List UsdaNutrient

/-- One iteration of the enrich_from_usda loop: look the nutrient id up in
USDA_NUTRIENT_MAP, and if the suggestion's value for that key is 0 and the
entry's value is present and strictly positive, write the rounded value. -/
def enrichStep (s : Suggestion) (n : UsdaNutrient) : Suggestion :=
  match n.nutrientId.bind USDA_NUTRIENT_MAP with
  | some k =>
    if s.nutrients k = 0 then
      match n.value with
      | some v =>
        if 0 < v then
          { s with nutrients := Function.update s.nutrients k (round2 v) }
        else s
      | none => s
    else s
  | none => s

/-- enrich_from_usda: fill zero-valued fields from the USDA food's
nutrient list, in list order. -/
def enrich_from_usda (s : Suggestion) (usda_food : UsdaFood) : Suggestion :=
  usda_food.foodNutrients.foldl enrichStep s

/-- Environment of the USDA search endpoint: whether USDA_PROVIDER_ID is
configured (non-empty), and per query the response — none models a non-200
response, some foods models a 200 response with its foods list. -/
structure UsdaEnv where
  providerConfigured : Bool
  response : String → Option (List UsdaFood)

/-- lookup_usda: none when no provider id is configured, none on a non-200
response, otherwise the first food of the returned list if any. -/
def lookup_usda (env : UsdaEnv) (query : String) : Option UsdaFood :=
  if !env.providerConfigured then none
  else
    match env.response query with
    | none => none
    | some foods => foods.head?

/-- The or-chain of USDA lookups in process_barcode: barcode first, then
brand and name combined (name alone when the brand is empty), then name
alone, stopping at the first lookup that returns a result. -/
def usdaLookupChain (env : UsdaEnv) (barcode name brand : String) :
    Option UsdaFood :=
  match lookup_usda env barcode with
  | some f => some f
  | none =>
    match lookup_usda env (if brand ≠ "" then brand ++ " " ++ name else name) with
    | some f => some f
    | none => lookup_usda env name

/-- Step 3 of process_barcode: when the record is incomplete, run the USDA
lookup chain and, when it yields a food, enrich the suggestion from it. -/
def enrichStage (env : UsdaEnv) (barcode : String) (product : Product)
    (s : Suggestion) : Suggestion :=
  if is_nutrition_complete s then s
  else
    match usdaLookupChain env barcode (product.product_name.getD "?")
        (product.brands.getD "") with
    | some f => enrich_from_usda s f
    | none => s

/-- The review-flag step of process_barcode: when the record is still
incomplete, append the review marker to the name and set the flag. -/
def applyReviewFlag (s : Suggestion) : Suggestion :=
  if is_nutrition_complete s then s
  else { s with name := s.name ++ " [REVIEW]", needs_review := true }

/-- The primary (OpenFoodFacts proxy) response for one scan: the HTTP
status code, the "status" field of the JSON body when present, and the
"product" object when present. -/
structure OffResponse where
  statusCode : ℕ
  status : Option ℤ
  product : Option Product

/-- lookup_barcode: not-found on a non-200 response, and not-found when the
status flag is not 1 or the product object is absent. -/
def lookup_barcode (resp : OffResponse) : Option Product :=
  if resp.statusCode ≠ 200 then none
  else if resp.status ≠ some 1 then none
  else resp.product

/-- A named half-open meal window: name, start minute, end minute. -/
abbrev MealWindow := String × ℕ × ℕ

/-- current_meal_type: the first configured window with start ≤ now < end,
defaulting to "Snack".  Time is minutes since local midnight. -/
def current_meal_type (windows : List MealWindow) (now : ℕ) : String :=
  match windows with
  | [] => "Snack"
  | (meal, s, e) :: rest =>
    if s ≤ now ∧ now < e then meal else current_meal_type rest now

/-- The default MEAL_WINDOWS configuration (05:00-10:00, 11:00-13:00,
14:00-16:00, in minutes since midnight). -/
def MEAL_WINDOWS : List MealWindow :=
  [("Breakfast", 300, 600), ("Lunch", 660, 780), ("Dinner", 840, 960)]

/-- Scale environment: whether SCALE_URL is configured, and the read
result — none models an exception or non-200 response, some w a 200
response whose JSON value field reads w (0 when the field is absent). -/
structure ScaleEnv where
  configured : Bool
  reading : Option ℚ

/-- get_scale_weight: none when unconfigured, on error, or when the reading
is not strictly positive. -/
def get_scale_weight (sc : ScaleEnv) : Option ℚ :=
  if !sc.configured then none
  else
    match sc.reading with
    | none => none
    | some w => if 0 < w then some w else none

/-- create_or_get_food: a non-2xx response yields (None, None); otherwise
the response's id and its default variant's id, either of which the remote
may omit. -/
def create_or_get_food (resp : Option (Option String × Option String)) :
    Option String × Option String :=
  match resp with
  | none => (none, none)
  | some ids => ids

/-- The diary-entry body built by log_food_entry (entry_date, always the
current local date, is omitted from the model). -/
structure DiaryEntry where
  food_id : String
  variant_id : String
  meal_type : String
  quantity : ℚ
  unit : String

/-- The body of log_food_entry: quantity is weight/100 rounded to two
decimals when a weight is supplied, else 1. -/
def log_food_entry_body (food_id variant_id meal_type : String)
    (weight_grams : Option ℚ) : DiaryEntry :=
  { food_id := food_id
    variant_id := variant_id
    meal_type := meal_type
    quantity :=
      match weight_grams with
      | some w => round2 (w / 100)
      | none => 1
    unit := "serving" }

/-- The full environment of one scan of the v2 pipeline. -/
structure Env where
  windows : List MealWindow
  now : ℕ
  offResponse : OffResponse
  usda : UsdaEnv
  catalogResponse : Option (Option String × Option String)
  scale : ScaleEnv
  diaryOk : Bool

/-- The observable outcome of one pipeline run: the candidate submitted to
the catalog (none when the scan aborted at lookup), whether the catalog
create call was reached, the diary entry submitted (none when the scan
aborted before it), and whether the diary call succeeded. -/
structure ScanOutcome where
  candidate : Option Suggestion
  catalogAttempted : Bool
  entry : Option DiaryEntry
  logged : Bool

/-- process_barcode from barcode_scanner_v2.py: lookup, build, enrich,
review-flag, catalog create, scale read, diary log. -/
def process_barcode (env : Env) (barcode : String)
    (meal_type : Option String) : ScanOutcome :=
  let mt := match meal_type with
    | none => current_meal_type env.windows env.now
    | some m => m
  match lookup_barcode env.offResponse with
  | none => ⟨none, false, none, false⟩
  | some product =>
    let s0 := build_food_suggestion product
    let s1 := enrichStage env.usda barcode product s0
    let s2 := applyReviewFlag s1
    match create_or_get_food env.catalogResponse with
    | (some fid, some vid) =>
      if fid.isEmpty || vid.isEmpty then ⟨some s2, true, none, false⟩
      else
        let weight := get_scale_weight env.scale
        ⟨some s2, true, some (log_food_entry_body fid vid mt weight),
          env.diaryOk⟩
    | _ => ⟨some s2, true, none, false⟩

/-- Linux input key code of KEY_ENTER. -/
def KEY_ENTER : ℕ := 28

/-- KEY_MAP: evdev digit key codes (KEY_1 = 2 … KEY_9 = 10, KEY_0 = 11) to
their characters. -/
def KEY_MAP (code : ℕ) : Option Char :=
  if code = 11 then some '0'
  else if code = 2 then some '1'
  else if code = 3 then some '2'
  else if code = 4 then some '3'
  else if code = 5 then some '4'
  else if code = 6 then some '5'
  else if code = 7 then some '6'
  else if code = 8 then some '7'
  else if code = 9 then some '8'
  else if code = 10 then some '9'
  else none

/-- One evdev input event, as inspected by read_barcodes_evdev: whether its
type is EV_KEY, whether its key state is key_down, and its scancode. -/
structure InputEvent where
  isKey : Bool
  isKeyDown : Bool
  scancode : ℕ

/-- One iteration of the read_barcodes_evdev loop: returns the new buffer
and the barcode handed to process_barcode, if any.  Non-key and non-
key-down events are skipped; Enter joins and clears the buffer, emitting
the barcode only when non-empty; digit keys append; other keys are
ignored. -/
def scanStep (buffer : List Char) (e : InputEvent) :
    List Char × Option String :=
  if !e.isKey then (buffer, none)
  else if !e.isKeyDown then (buffer, none)
  else if e.scancode = KEY_ENTER then
    let barcode := String.mk buffer
    ([], if barcode.isEmpty then none else some barcode)
  else
    match KEY_MAP e.scancode with
    | some c => (buffer ++ [c], none)
    | none => (buffer, none)

/-- The read_barcodes_evdev loop over a finite event sequence: final buffer
and the list of barcodes handed to the pipeline, in order. -/
def runScanner : List InputEvent → List Char → List Char × List String
  | [], buf => (buf, [])
  | e :: es, buf =>
    let step := scanStep buf e
    let rest := runScanner es step.1
    (rest.1, step.2.toList ++ rest.2)

/-- Membership of a time in a half-open meal window (start ≤ t < end). -/
abbrev inWindow (w : MealWindow) (t : ℕ) : Prop := w.2.1 ≤ t ∧ t < w.2.2

/-- Spec-side comparison for the refinement claim: the two pipeline
variants "produce the same food-candidate record" means agreement on every
field the two candidate shapes share. -/
def sameCandidate (a : SuggestionV1) (b : Suggestion) : Prop :=
  a.name = b.name ∧ a.brand = b.brand ∧ a.barcode = b.barcode ∧
  a.provider_type = b.provider_type ∧ a.serving_size = b.serving_size ∧
  a.serving_unit = b.serving_unit ∧ ∀ k, a.nutrients k = b.nutrients k

/-- A concrete product whose name is entirely upper-case and whose measured
protein is positive (so the record is complete and the enrichment steps 3-4
are no-ops in both variants). -/
def upperMilkProduct : Product :=
  { product_name := some "MILK"
    brands := some "Arla"
    code := some "5711953068"
    nutriments := fun k => if k = Nutrient.protein then some 3 else none
    nutriments_estimated := none }

/-- A concrete product with a mixed-case name and positive measured
protein. -/
def sampleProduct : Product :=
  { product_name := some "Oats"
    brands := some "Brand"
    code := some "42"
    nutriments := fun k => if k = Nutrient.protein then some 13 else none
    nutriments_estimated := none }

/-- A concrete suggestion whose protein is positive and whose other
nutrient values are all zero. -/
def sampleSuggestion : Suggestion :=
  { name := "Oats"
    brand := ""
    barcode := "42"
    provider_type := "openfoodfacts"
    shared_with_public := false
    serving_size := 100
    serving_unit := "g"
    is_custom := true
    nutrients := fun k => if k = Nutrient.protein then 13 else 0
    needs_review := false }

/-- A concrete suggestion whose nutrient values are all zero. -/
def zeroSuggestion : Suggestion :=
  { name := "Mystery"
    brand := ""
    barcode := "7"
    provider_type := "openfoodfacts"
    shared_with_public := false
    serving_size := 100
    serving_unit := "g"
    is_custom := true
    nutrients := fun _ => 0
    needs_review := false }

/-- A concrete USDA food carrying one fat entry. -/
def sampleUsdaFood : UsdaFood := ⟨[⟨some 1004, some 9⟩]⟩

/-- A concrete USDA food carrying one protein entry (id 1003) of value 4. -/
def proteinUsdaFood : UsdaFood := ⟨[⟨some 1003, some 4⟩]⟩

/-- The condition under which an entry of a USDA nutrient list actually
changes a zero-valued key k: its id maps to k and it carries a strictly
positive value whose two-decimal rounding is non-zero (a positive value
rounding to zero is written, but writing it leaves the key at zero). -/
def usdaWrites (k : Nutrient) (n : UsdaNutrient) : Prop :=
  n.nutrientId.bind USDA_NUTRIENT_MAP = some k ∧
  ∃ v, n.value = some v ∧ 0 < v ∧ round2 v ≠ 0

/-- A USDA environment with no provider credential configured. -/
def noUsdaEnv : UsdaEnv := ⟨false, fun _ => none⟩

/-- A concrete environment whose primary lookup succeeds and whose catalog
call returns usable identifiers. -/
def sampleEnvFound : Env :=
  { windows := MEAL_WINDOWS
    now := 700
    offResponse := ⟨200, some 1, some sampleProduct⟩
    usda := noUsdaEnv
    catalogResponse := some (some "f1", some "v1")
    scale := ⟨false, none⟩
    diaryOk := true }

/-- A concrete environment whose primary lookup returns HTTP 500. -/
def sampleEnvNotFound : Env :=
  { windows := MEAL_WINDOWS
    now := 700
    offResponse := ⟨500, none, none⟩
    usda := noUsdaEnv
    catalogResponse := some (some "f1", some "v1")
    scale := ⟨false, none⟩
    diaryOk := true }

/-- A scale environment that is configured and reads exactly zero. -/
def zeroScale : ScaleEnv := ⟨true, some 0⟩

/-- A concrete scanner event sequence: key-down events for the digits 2 and
3 followed by Enter. -/
def sampleEvents : List InputEvent := [⟨true, true, 3⟩, ⟨true, true, 4⟩, ⟨true, true, 28⟩]

/-! ## Helper lemmas -/

theorem enrichStep_fields (s : Suggestion) (n : UsdaNutrient) :
    (enrichStep s n).name = s.name ∧ (enrichStep s n).brand = s.brand ∧
    (enrichStep s n).barcode = s.barcode ∧
    (enrichStep s n).provider_type = s.provider_type ∧
    (enrichStep s n).serving_size = s.serving_size ∧
    (enrichStep s n).serving_unit = s.serving_unit ∧
    (enrichStep s n).is_custom = s.is_custom ∧
    (enrichStep s n).needs_review = s.needs_review ∧
    (enrichStep s n).shared_with_public = s.shared_with_public := by
  unfold enrichStep
  rcases n.nutrientId.bind USDA_NUTRIENT_MAP with _ | k
  · simp
  · by_cases h0 : s.nutrients k = 0
    · rcases n.value with _ | v
      · simp [h0]
      · simp only [h0, if_true]
        split <;> simp
    · simp [h0]

theorem enrichStep_nonzero (s : Suggestion) (n : UsdaNutrient) (k : Nutrient)
    (h : s.nutrients k ≠ 0) :
    (enrichStep s n).nutrients k = s.nutrients k := by
  unfold enrichStep
  rcases n.nutrientId.bind USDA_NUTRIENT_MAP with _ | k2
  · rfl
  · by_cases h0 : s.nutrients k2 = 0
    · have hne : k ≠ k2 := by
        intro he; exact h (he ▸ h0)
      rcases n.value with _ | v
      · simp [h0]
      · simp only [h0, if_true]
        split
        · simp [Function.update_noteq hne]
        · rfl
    · simp [h0]

theorem enrichStep_change (s : Suggestion) (n : UsdaNutrient) (k : Nutrient) :
    (enrichStep s n).nutrients k = s.nutrients k ∨
    (s.nutrients k = 0 ∧ n.nutrientId.bind USDA_NUTRIENT_MAP = some k ∧
      ∃ v, n.value = some v ∧ 0 < v ∧
        (enrichStep s n).nutrients k = round2 v) := by
  unfold enrichStep
  rcases hb : n.nutrientId.bind USDA_NUTRIENT_MAP with _ | k2
  · left; rfl
  · by_cases h0 : s.nutrients k2 = 0
    · rcases hv : n.value with _ | v
      · left; simp [h0]
      · simp only [h0, if_true]
        by_cases hpos : 0 < v
        · simp only [hpos, if_true]
          by_cases hk : k = k2
          · subst hk
            right
            exact ⟨h0, rfl, v, rfl, hpos, by simp⟩
          · left; simp [Function.update_noteq hk]
        · left; simp [hpos]
    · left; simp [h0]

theorem enrich_fields (s : Suggestion) (f : UsdaFood) :
    (enrich_from_usda s f).name = s.name ∧
    (enrich_from_usda s f).brand = s.brand ∧
    (enrich_from_usda s f).barcode = s.barcode ∧
    (enrich_from_usda s f).provider_type = s.provider_type ∧
    (enrich_from_usda s f).serving_size = s.serving_size ∧
    (enrich_from_usda s f).serving_unit = s.serving_unit ∧
    (enrich_from_usda s f).is_custom = s.is_custom ∧
    (enrich_from_usda s f).needs_review = s.needs_review ∧
    (enrich_from_usda s f).shared_with_public = s.shared_with_public := by
  rcases f with ⟨ns⟩
  unfold enrich_from_usda
  induction ns generalizing s with
  | nil => simp
  | cons n ns ih =>
    simp only [List.foldl_cons]
    have h1 := enrichStep_fields s n
    have h2 := ih (enrichStep s n)
    exact ⟨h2.1.trans h1.1, (h2.2.1).trans h1.2.1, (h2.2.2.1).trans h1.2.2.1,
      (h2.2.2.2.1).trans h1.2.2.2.1, (h2.2.2.2.2.1).trans h1.2.2.2.2.1,
      (h2.2.2.2.2.2.1).trans h1.2.2.2.2.2.1,
      (h2.2.2.2.2.2.2.1).trans h1.2.2.2.2.2.2.1,
      (h2.2.2.2.2.2.2.2.1).trans h1.2.2.2.2.2.2.2.1,
      (h2.2.2.2.2.2.2.2.2).trans h1.2.2.2.2.2.2.2.2⟩

theorem enrich_nonzero (s : Suggestion) (f : UsdaFood) (k : Nutrient)
    (h : s.nutrients k ≠ 0) :
    (enrich_from_usda s f).nutrients k = s.nutrients k := by
  rcases f with ⟨ns⟩
  unfold enrich_from_usda
  induction ns generalizing s with
  | nil => rfl
  | cons n ns ih =>
    simp only [List.foldl_cons]
    have h1 := enrichStep_nonzero s n k h
    have h2 := ih (enrichStep s n) (by rw [h1]; exact h)
    exact h2.trans h1

theorem enrich_change (s : Suggestion) (f : UsdaFood) (k : Nutrient) :
    (enrich_from_usda s f).nutrients k = s.nutrients k ∨
    (s.nutrients k = 0 ∧ ∃ n ∈ f.foodNutrients,
      n.nutrientId.bind USDA_NUTRIENT_MAP = some k ∧
      ∃ v, n.value = some v ∧ 0 < v ∧
        (enrich_from_usda s f).nutrients k = round2 v) := by
  rcases f with ⟨ns⟩
  unfold enrich_from_usda
  induction ns generalizing s with
  | nil => left; rfl
  | cons n ns ih =>
    simp only [List.foldl_cons]
    rcases enrichStep_change s n k with heq | ⟨h0, hmap, v, hv, hpos, hset⟩
    · rcases ih (enrichStep s n) with h | ⟨h0, m, hm, hmap, v, hv, hpos, hset⟩
      · left; rw [h, heq]
      · right
        refine ⟨heq ▸ h0, m, List.mem_cons_of_mem _ hm, hmap, v, hv, hpos, hset⟩
    · rcases ih (enrichStep s n) with h | ⟨h0f, m, hm, hmapf, vf, hvf, hposf, hsetf⟩
      · right
        exact ⟨h0, n, List.mem_cons_self _ _, hmap, v, hv, hpos, h.trans hset⟩
      · right
        exact ⟨h0, m, List.mem_cons_of_mem _ hm, hmapf, vf, hvf, hposf, hsetf⟩

theorem enrichStep_zero_stays (s : Suggestion) (n : UsdaNutrient)
    (k : Nutrient) (h0 : s.nutrients k = 0) (hnw : ¬ usdaWrites k n) :
    (enrichStep s n).nutrients k = 0 := by
  unfold enrichStep
  rcases hb : n.nutrientId.bind USDA_NUTRIENT_MAP with _ | k2
  · exact h0
  · by_cases hz : s.nutrients k2 = 0
    · rcases hv : n.value with _ | v
      · simp [hz, h0]
      · simp only [hz, if_true]
        by_cases hpos : 0 < v
        · simp only [hpos, if_true]
          by_cases hk : k = k2
          · subst hk
            by_cases hr : round2 v = 0
            · simp [Function.update_same, hr]
            · exact absurd ⟨hb, v, hv, hpos, hr⟩ hnw
          · simp [Function.update_noteq hk, h0]
        · simp [hpos, h0]
    · simp [hz, h0]

theorem usda_fill_first (l1 : List UsdaNutrient) :
    ∀ (s : Suggestion) (k : Nutrient) (n0 : UsdaNutrient)
      (l2 : List UsdaNutrient) (v : ℚ),
    s.nutrients k = 0 → (∀ m ∈ l1, ¬ usdaWrites k m) →
    n0.nutrientId.bind USDA_NUTRIENT_MAP = some k → n0.value = some v →
    0 < v → round2 v ≠ 0 →
    ((l1 ++ n0 :: l2).foldl enrichStep s).nutrients k = round2 v := by
  induction l1 with
  | nil =>
    intro s k n0 l2 v h0 _ hb hv hpos hr
    simp only [List.nil_append, List.foldl_cons]
    have hw : (enrichStep s n0).nutrients k = round2 v := by
      unfold enrichStep
      rw [hb]
      simp only [h0, if_true]
      rw [hv]
      simp [hpos, Function.update_same]
    have hpres := enrich_nonzero (enrichStep s n0) ⟨l2⟩ k (by rw [hw]; exact hr)
    rw [← hw]
    exact hpres
  | cons m l1 ih =>
    intro s k n0 l2 v h0 hpre hb hv hpos hr
    simp only [List.cons_append, List.foldl_cons]
    exact ih (enrichStep s m) k n0 l2 v
      (enrichStep_zero_stays s m k h0 (hpre m (List.mem_cons_self _ _)))
      (fun u hu => hpre u (List.mem_cons_of_mem _ hu)) hb hv hpos hr

theorem usda_no_fill (ns : List UsdaNutrient) :
    ∀ (s : Suggestion) (k : Nutrient), s.nutrients k = 0 →
    (∀ m ∈ ns, ¬ usdaWrites k m) →
    ((ns.foldl enrichStep s)).nutrients k = 0 := by
  induction ns with
  | nil => intro s k h0 _; exact h0
  | cons m ns ih =>
    intro s k h0 hall
    simp only [List.foldl_cons]
    exact ih (enrichStep s m)  k
      (enrichStep_zero_stays s m k h0 (hall m (List.mem_cons_self _ _)))
      (fun u hu => hall u (List.mem_cons_of_mem _ hu))

theorem build_nutrients (p : Product) (k : Nutrient) :
    (build_food_suggestion p).nutrients k =
      match p.nutriments_estimated with
      | some est => fillFromEstimated (measuredNutrients p.nutriments) est k
      | none => measuredNutrients p.nutriments k := by
  unfold build_food_suggestion
  rcases p.nutriments_estimated with _ | est <;> rfl

/-! ## Claim theorems -/

/-- C1: in the food candidate built from a primary product record, every
recognized nutrient key carries a numeric value (the nutrients field is a
total function, so presence is structural); the value is the measured
value rounded to two decimals whenever that rounded value is non-zero, and
otherwise — i.e. when the measured value is absent or rounds to zero — it
comes from the estimated block exactly when the estimated value is present
and strictly positive, zero or missing estimates leaving the zero in
place. -/
theorem build_food_suggestion_fill (p : Product) (k : Nutrient) :
    (measuredNutrients p.nutriments k ≠ 0 →
      (build_food_suggestion p).nutrients k = measuredNutrients p.nutriments k)
    ∧ (measuredNutrients p.nutriments k = 0 →
      (build_food_suggestion p).nutrients k =
        match p.nutriments_estimated with
        | some est =>
          match est k with
          | some e => if 0 < e then round2 e else 0
          | none => 0
        | none => 0) := by
  have hb := build_nutrients p k
  constructor
  · intro hne
    rw [hb]
    rcases hpe : p.nutriments_estimated with _ | est
    · rfl
    · simp [fillFromEstimated, hne]
  · intro h0
    rw [hb]
    rcases hpe : p.nutriments_estimated with _ | est
    · exact h0
    · simp only [fillFromEstimated, h0, if_true]

/-- Witness for C1: a concrete product with measured protein 13 yields a
candidate whose protein value is 13. -/
theorem build_food_suggestion_fill_witness :
    (build_food_suggestion sampleProduct).nutrients Nutrient.protein = 13 := by
  have h := (build_food_suggestion_fill sampleProduct Nutrient.protein).1
  have hm : measuredNutrients sampleProduct.nutriments Nutrient.protein = 13 := by
    norm_num [measuredNutrients, sampleProduct, round2, round_eq]
  rw [hm] at h
  exact h (by norm_num)

/-- C2: the completeness predicate holds iff at least one of protein,
carbs, fat is strictly positive; in particular it is false on a record
whose three macro values are all zero. -/
theorem is_nutrition_complete_spec (s : Suggestion) :
    (is_nutrition_complete s = true ↔
      0 < s.nutrients Nutrient.protein ∨ 0 < s.nutrients Nutrient.carbs ∨
      0 < s.nutrients Nutrient.fat)
    ∧ (s.nutrients Nutrient.protein = 0 → s.nutrients Nutrient.carbs = 0 →
      s.nutrients Nutrient.fat = 0 → is_nutrition_complete s = false) := by
  constructor
  · simp [is_nutrition_complete]
  · intro h1 h2 h3
    simp [is_nutrition_complete, h1, h2, h3]

/-- Witness for C2: the all-zero record is incomplete. -/
theorem is_nutrition_complete_spec_witness :
    is_nutrition_complete zeroSuggestion = false :=
  (is_nutrition_complete_spec zeroSuggestion).2 rfl rfl rfl

/-- C4: enrichment never overwrites a non-zero value — a key whose measured
value rounds to non-zero keeps it through the estimated-block fill, a key
non-zero before the USDA fill keeps its value through it — and the USDA
fill leaves name, brand, barcode, serving size, serving unit, and the
provenance tag unchanged. -/
theorem enrichment_no_overwrite (p : Product) (s : Suggestion)
    (f : UsdaFood) (k : Nutrient) :
    (measuredNutrients p.nutriments k ≠ 0 →
      (build_food_suggestion p).nutrients k = measuredNutrients p.nutriments k)
    ∧ (s.nutrients k ≠ 0 →
      (enrich_from_usda s f).nutrients k = s.nutrients k)
    ∧ (enrich_from_usda s f).name = s.name
    ∧ (enrich_from_usda s f).brand = s.brand
    ∧ (enrich_from_usda s f).barcode = s.barcode
    ∧ (enrich_from_usda s f).serving_size = s.serving_size
    ∧ (enrich_from_usda s f).serving_unit = s.serving_unit
    ∧ (enrich_from_usda s f).provider_type = s.provider_type := by
  have hf := enrich_fields s f
  refine ⟨?_, fun h => enrich_nonzero s f k h, hf.1, hf.2.1, hf.2.2.1,
    hf.2.2.2.2.1, hf.2.2.2.2.2.1, hf.2.2.2.1⟩
  intro hne
  rw [build_nutrients p k]
  rcases hpe : p.nutriments_estimated with _ | est
  · rfl
  · simp [fillFromEstimated, hne]

theorem enrichStage_needs_review (env : UsdaEnv) (bc : String) (p : Product)
    (s : Suggestion) :
    (enrichStage env bc p s).needs_review = s.needs_review := by
  unfold enrichStage
  split
  · rfl
  · split
    · exact (enrich_fields _ _).2.2.2.2.2.2.2.1
    · rfl

/-- C3: the secondary lookup chain queries by barcode, then by brand and
name combined (name alone when the brand is empty), then by name alone,
stopping at the first query that returns a result; the enrichment from its
result changes only keys that were zero, writing only strictly positive
values from the result's nutrient list; a key still zero IS filled: it
receives the rounded value of the first list entry for that key with a
strictly positive value rounding non-zero (positive values rounding to
zero write a zero, which leaves the key fillable), and it remains zero
when no entry qualifies; and with no provider credential configured every
secondary lookup returns not-found and the enrichment stage leaves the
record unchanged. -/
theorem secondary_lookup_spec (env : UsdaEnv) (bc name brand : String)
    (s : Suggestion) :
    (∀ f, lookup_usda env bc = some f →
      usdaLookupChain env bc name brand = some f)
    ∧ (∀ f, lookup_usda env bc = none →
      lookup_usda env (if brand ≠ "" then brand ++ " " ++ name else name) = some f →
      usdaLookupChain env bc name brand = some f)
    ∧ (lookup_usda env bc = none →
      lookup_usda env (if brand ≠ "" then brand ++ " " ++ name else name) = none →
      usdaLookupChain env bc name brand = lookup_usda env name)
    ∧ (∀ f k, (enrich_from_usda s f).nutrients k = s.nutrients k ∨
      (s.nutrients k = 0 ∧ ∃ n ∈ f.foodNutrients,
        n.nutrientId.bind USDA_NUTRIENT_MAP = some k ∧
        ∃ v, n.value = some v ∧ 0 < v ∧
          (enrich_from_usda s f).nutrients k = round2 v))
    ∧ (∀ f k (l1 : List UsdaNutrient) (n0 : UsdaNutrient)
        (l2 : List UsdaNutrient) (v : ℚ), s.nutrients k = 0 →
      f.foodNutrients = l1 ++ n0 :: l2 → (∀ m ∈ l1, ¬ usdaWrites k m) →
      n0.nutrientId.bind USDA_NUTRIENT_MAP = some k → n0.value = some v →
      0 < v → round2 v ≠ 0 →
      (enrich_from_usda s f).nutrients k = round2 v)
    ∧ (∀ f k, s.nutrients k = 0 →
      (∀ m ∈ f.foodNutrients, ¬ usdaWrites k m) →
      (enrich_from_usda s f).nutrients k = 0)
    ∧ (env.providerConfigured = false →
      (∀ q, lookup_usda env q = none)
      ∧ ∀ bc2 (p : Product), enrichStage env bc2 p s = s) := by
  refine ⟨?_, ?_, ?_, fun f k => enrich_change s f k, ?_, ?_, ?_⟩
  · intro f hf
    unfold usdaLookupChain
    rw [hf]
  · intro f h1 h2
    unfold usdaLookupChain
    rw [h1, h2]
  · intro h1 h2
    unfold usdaLookupChain
    rw [h1, h2]
  · intro f k l1 n0 l2 v h0 hfn hpre hb hv hpos hr
    rcases f with ⟨ns⟩
    simp only at hfn
    subst hfn
    exact usda_fill_first l1 s k n0 l2 v h0 hpre hb hv hpos hr
  · intro f k h0 hall
    rcases f with ⟨ns⟩
    exact usda_no_fill ns s k h0 hall
  · intro hcfg
    have hnone : ∀ q, lookup_usda env q = none := by
      intro q
      unfold lookup_usda
      rw [hcfg]
      rfl
    refine ⟨hnone, fun bc2 p => ?_⟩
    unfold enrichStage
    split
    · rfl
    · simp [usdaLookupChain, hnone]

/-- Witness for C3: enriching the all-zero record from a USDA food whose
nutrient list carries protein id 1003 with value 4 actually fills the
protein key with 4. -/
theorem secondary_lookup_spec_witness :
    (enrich_from_usda zeroSuggestion proteinUsdaFood).nutrients
      Nutrient.protein = 4 := by
  have h := (secondary_lookup_spec noUsdaEnv "42" "Oats" "Brand"
    zeroSuggestion).2.2.2.2.1
  have h4 := h proteinUsdaFood Nutrient.protein [] ⟨some 1003, some 4⟩ [] 4
    rfl rfl (by simp) rfl rfl (by norm_num) (by norm_num [round2, round_eq])
  rw [h4]
  norm_num [round2, round_eq]

/-- C5: when the primary lookup succeeds, the pipeline always reaches the
catalog-creation step; the candidate it submits carries the review marker
appended to its name and the review flag exactly when the record is still
incomplete after enrichment, and is submitted unchanged (flag unset) when
it is complete; and when the catalog returns usable identifiers a diary
entry is submitted. -/
theorem process_barcode_review (env : Env) (bc : String) (mt : Option String)
    (p : Product) (h : lookup_barcode env.offResponse = some p) :
    (process_barcode env bc mt).catalogAttempted = true
    ∧ (is_nutrition_complete
        (enrichStage env.usda bc p (build_food_suggestion p)) = false →
      (process_barcode env bc mt).candidate = some
        { enrichStage env.usda bc p (build_food_suggestion p) with
          name := (enrichStage env.usda bc p (build_food_suggestion p)).name
            ++ " [REVIEW]"
          needs_review := true })
    ∧ (is_nutrition_complete
        (enrichStage env.usda bc p (build_food_suggestion p)) = true →
      (process_barcode env bc mt).candidate =
        some (enrichStage env.usda bc p (build_food_suggestion p))
      ∧ (enrichStage env.usda bc p (build_food_suggestion p)).needs_review
          = false)
    ∧ (∀ fid vid, create_or_get_food env.catalogResponse = (some fid, some vid) →
      fid.isEmpty = false → vid.isEmpty = false →
      (process_barcode env bc mt).entry.isSome = true) := by
  have hnr : (enrichStage env.usda bc p (build_food_suggestion p)).needs_review
      = false := by
    rw [enrichStage_needs_review]
    rfl
  simp only [process_barcode, h]
  rcases hc : create_or_get_food env.catalogResponse with ⟨_ | fid0, _ | vid0⟩
  · exact ⟨rfl,
      fun hinc => by simp [applyReviewFlag, hinc],
      fun hcomp => ⟨by simp [applyReviewFlag, hcomp], hnr⟩,
      fun fid vid heq => absurd heq (by simp)⟩
  · exact ⟨rfl,
      fun hinc => by simp [applyReviewFlag, hinc],
      fun hcomp => ⟨by simp [applyReviewFlag, hcomp], hnr⟩,
      fun fid vid heq => absurd heq (by simp)⟩
  · exact ⟨rfl,
      fun hinc => by simp [applyReviewFlag, hinc],
      fun hcomp => ⟨by simp [applyReviewFlag, hcomp], hnr⟩,
      fun fid vid heq => absurd heq (by simp)⟩
  · by_cases hif : (fid0.isEmpty || vid0.isEmpty) = true
    · refine ⟨by simp [hif], fun hinc => by simp [hif, applyReviewFlag, hinc],
        fun hcomp => ⟨by simp [hif, applyReviewFlag, hcomp], hnr⟩, ?_⟩
      intro fid vid heq hfe hve
      injection heq with hfid hvid
      injection hfid with hfid
      injection hvid with hvid
      subst hfid
      subst hvid
      exact absurd hif (by simp [hfe, hve])
    · exact ⟨by simp [hif], fun hinc => by simp [hif, applyReviewFlag, hinc],
        fun hcomp => ⟨by simp [hif, applyReviewFlag, hcomp], hnr⟩,
        fun fid vid heq hfe hve => by simp [hif]⟩
theorem enrichment_no_overwrite_witness :
    (enrich_from_usda sampleSuggestion sampleUsdaFood).nutrients
      Nutrient.protein = 13 := by
  have h := (enrichment_no_overwrite sampleProduct sampleSuggestion
    sampleUsdaFood Nutrient.protein).2.1
  have hs : sampleSuggestion.nutrients Nutrient.protein = 13 := rfl
  rw [hs] at h
  exact h (by norm_num)

theorem cmt_default (ws : List MealWindow) (now : ℕ) :
    (∀ w ∈ ws, ¬ inWindow w now) → current_meal_type ws now = "Snack" := by
  induction ws with
  | nil => intro _; rfl
  | cons a rest ih =>
    intro hall
    rcases a with ⟨m, s, e⟩
    unfold current_meal_type
    rw [if_neg (hall (m, s, e) (List.mem_cons_self _ _))]
    exact ih fun v hv => hall v (List.mem_cons_of_mem _ hv)

theorem cmt_first (pre : List MealWindow) (w : MealWindow)
    (post : List MealWindow) (now : ℕ) :
    (∀ v ∈ pre, ¬ inWindow v now) → inWindow w now →
    current_meal_type (pre ++ w :: post) now = w.1 := by
  induction pre with
  | nil =>
    intro _ hw
    rcases w with ⟨m, s, e⟩
    rw [List.nil_append]
    unfold current_meal_type
    rw [if_pos hw]
  | cons v pre ih =>
    intro hpre hw
    rcases v with ⟨m2, s2, e2⟩
    rw [List.cons_append]
    unfold current_meal_type
    rw [if_neg (hpre (m2, s2, e2) (List.mem_cons_self _ _))]
    exact ih (fun u hu => hpre u (List.mem_cons_of_mem _ hu)) hw

theorem cmt_unique (ws : List MealWindow) (now : ℕ) :
    ws.Pairwise (fun a b => ∀ t, ¬(inWindow a t ∧ inWindow b t)) →
    ∀ w ∈ ws, inWindow w now → current_meal_type ws now = w.1 := by
  induction ws with
  | nil => intro _ w hw; cases hw
  | cons a rest ih =>
    intro hpw w hw hin
    rcases List.mem_cons.mp hw with rfl | hmem
    · rcases w with ⟨m, s, e⟩
      unfold current_meal_type
      rw [if_pos hin]
    · have hnot : ¬ inWindow a now := fun hina =>
        (List.pairwise_cons.mp hpw).1 w hmem now ⟨hina, hin⟩
      rcases a with ⟨m2, s2, e2⟩
      unfold current_meal_type
      rw [if_neg hnot]
      exact ih (List.pairwise_cons.mp hpw).2 w hmem hin

/-- C6: the diary-entry quantity is weight/100 rounded to two decimals when
a weight is supplied (250 gives 2.50), 1 when no weight is supplied; a
scale reading of zero makes get_scale_weight report no weight, so the
logged quantity is 1, and any weight the scale reports is strictly
positive. -/
theorem quantity_spec (f v m : String) (w : ℚ) (sc : ScaleEnv) :
    (log_food_entry_body f v m (some w)).quantity = round2 (w / 100)
    ∧ (log_food_entry_body f v m (some 250)).quantity = 5 / 2
    ∧ (log_food_entry_body f v m none).quantity = 1
    ∧ (sc.reading = some 0 →
      (log_food_entry_body f v m (get_scale_weight sc)).quantity = 1)
    ∧ (∀ w2, get_scale_weight sc = some w2 → 0 < w2) := by
  refine ⟨rfl, ?_, rfl, ?_, ?_⟩
  · show round2 (250 / 100) = 5 / 2
    norm_num [round2, round_eq]
  · intro hr
    have hnone : get_scale_weight sc = none := by
      unfold get_scale_weight
      rw [hr]
      rcases sc.configured <;> simp
    rw [hnone]
    rfl
  · intro w2 hw
    unfold get_scale_weight at hw
    split at hw
    · exact absurd hw (by simp)
    · split at hw
      · exact absurd hw (by simp)
      · split at hw
        · injection hw with hw
          subst hw
          assumption
        · exact absurd hw (by simp)

/-- Witness for C6: with a configured scale reading exactly zero, the
logged quantity is 1. -/
theorem quantity_spec_witness :
    (log_food_entry_body "f1" "v1" "Lunch" (get_scale_weight zeroScale)).quantity
      = 1 :=
  (quantity_spec "f1" "v1" "Lunch" 0 zeroScale).2.2.2.1 rfl

/-- C7: the meal-slot resolver returns the name of the first configured
window containing the current time; it returns "Snack" when no window
contains it; and with pairwise non-overlapping windows it returns the name
of the unique containing window. -/
theorem current_meal_type_spec (ws : List MealWindow) (now : ℕ) :
    ((∀ w ∈ ws, ¬ inWindow w now) → current_meal_type ws now = "Snack")
    ∧ (∀ pre w post, ws = pre ++ w :: post →
      (∀ v ∈ pre, ¬ inWindow v now) → inWindow w now →
      current_meal_type ws now = w.1)
    ∧ (ws.Pairwise (fun a b => ∀ t, ¬(inWindow a t ∧ inWindow b t)) →
      ∀ w ∈ ws, inWindow w now → current_meal_type ws now = w.1) :=
  ⟨cmt_default ws now,
   fun pre w post hws hpre hw => by
     subst hws
     exact cmt_first pre w post now hpre hw,
   cmt_unique ws now⟩

/-- Witness for C7: at 11:40 (700 minutes) under the default windows the
resolver picks Lunch, the first (and unique) containing window. -/
theorem current_meal_type_spec_witness :
    current_meal_type MEAL_WINDOWS 700 = "Lunch" := by
  have h := (current_meal_type_spec MEAL_WINDOWS 700).2.1
  exact h [("Breakfast", 300, 600)] ("Lunch", 660, 780) [("Dinner", 840, 960)]
    rfl (by decide) (by decide)

/-- C8: a non-200 primary response, a status flag other than 1, and an
absent product object each make the primary lookup report not-found, and a
not-found primary lookup aborts the run with no candidate, no catalog
call, and no diary entry. -/
theorem lookup_not_found_aborts (env : Env) (bc : String) (mt : Option String) :
    (env.offResponse.statusCode ≠ 200 → lookup_barcode env.offResponse = none)
    ∧ (env.offResponse.status ≠ some 1 → lookup_barcode env.offResponse = none)
    ∧ (env.offResponse.product = none → lookup_barcode env.offResponse = none)
    ∧ (lookup_barcode env.offResponse = none →
      process_barcode env bc mt = ⟨none, false, none, false⟩) := by
  refine ⟨?_, ?_, ?_, ?_⟩
  · intro hsc
    unfold lookup_barcode
    split_ifs
    simp_all
  · intro hst
    unfold lookup_barcode
    split_ifs <;> simp_all
  · intro hp
    unfold lookup_barcode
    split_ifs <;> simp_all
  · intro hl
    simp only [process_barcode, hl]

/-- Witness for C8: a scan whose primary lookup returns HTTP 500 produces
no candidate, no catalog call, and no diary entry. -/
theorem lookup_not_found_aborts_witness :
    process_barcode sampleEnvNotFound "1" none = ⟨none, false, none, false⟩ :=
  (lookup_not_found_aborts sampleEnvNotFound "1" none).2.2.2 rfl

/-- Witness for C5: a found product with usable catalog identifiers leads
to a submitted diary entry. -/
theorem process_barcode_review_witness :
    (process_barcode sampleEnvFound "42" none).entry.isSome = true :=
  (process_barcode_review sampleEnvFound "42" none sampleProduct rfl).2.2.2
    "f1" "v1" rfl rfl rfl

/-- C9 counterexample: on a product whose name is entirely upper-case (and
whose macros are complete, so enrichment steps 3-4 are no-ops), the two
variants build different food-candidate records — the full variant
title-cases the name to "Milk" while the simpler variant keeps "MILK". -/
theorem variants_differ :
    ¬ sameCandidate (build_food_suggestion_v1 upperMilkProduct)
      (build_food_suggestion upperMilkProduct) := by
  intro hsame
  have hname := hsame.1
  have h1 : (build_food_suggestion_v1 upperMilkProduct).name = "MILK" := by
    decide
  have h2 : (build_food_suggestion upperMilkProduct).name = "Milk" := by
    decide
  rw [h1, h2] at hname
  exact absurd hname (by decide)

/-- C9 amended: the simpler variant omits, besides enrichment steps 3-4,
also the estimated-block fill and the name/brand title-casing; the two
variants' candidate records agree on every nutrient value whenever the
product has no estimated block, agree unconditionally on barcode,
provenance, serving size and serving unit, and agree on name and brand
whenever those are not entirely upper-case. -/
theorem variants_agree (p : Product) :
    (p.nutriments_estimated = none →
      ∀ k, (build_food_suggestion_v1 p).nutrients k =
        (build_food_suggestion p).nutrients k)
    ∧ (build_food_suggestion_v1 p).barcode = (build_food_suggestion p).barcode
    ∧ (build_food_suggestion_v1 p).provider_type
        = (build_food_suggestion p).provider_type
    ∧ (build_food_suggestion_v1 p).serving_size
        = (build_food_suggestion p).serving_size
    ∧ (build_food_suggestion_v1 p).serving_unit
        = (build_food_suggestion p).serving_unit
    ∧ (pyIsUpper (orDefault p.product_name "Unknown Product") = false →
      (build_food_suggestion_v1 p).name = (build_food_suggestion p).name)
    ∧ (pyIsUpper (orDefault p.brands "") = false →
      (build_food_suggestion_v1 p).brand = (build_food_suggestion p).brand) := by
  refine ⟨?_, rfl, rfl, rfl, rfl, ?_, ?_⟩
  · intro hpe k
    rw [build_nutrients p k, hpe]
    rfl
  · intro hup
    simp [build_food_suggestion, build_food_suggestion_v1, hup]
  · intro hup
    simp [build_food_suggestion, build_food_suggestion_v1, hup]

/-- Witness for C9 (amended): on a mixed-case product with no estimated
block the two variants agree on the name. -/
theorem variants_agree_witness :
    (build_food_suggestion_v1 sampleProduct).name =
      (build_food_suggestion sampleProduct).name :=
  (variants_agree sampleProduct).2.2.2.2.2.1 (by decide)

theorem KEY_MAP_digit (code : ℕ) (c : Char) (h : KEY_MAP code = some c) :
    c.isDigit = true := by
  unfold KEY_MAP at h
  split_ifs at h
  all_goals
    injection h with h
    subst h
    decide

theorem runScanner_inv (events : List InputEvent) (buf : List Char)
    (hbuf : buf.all Char.isDigit = true) :
    (runScanner events buf).1.all Char.isDigit = true
    ∧ ∀ b ∈ (runScanner events buf).2,
      b ≠ "" ∧ b.data.all Char.isDigit = true := by
  induction events generalizing buf with
  | nil =>
    refine ⟨hbuf, ?_⟩
    intro b hb
    simp [runScanner] at hb
  | cons e es ih =>
    have hstep : (scanStep buf e).1.all Char.isDigit = true ∧
        ∀ b ∈ (scanStep buf e).2.toList,
          b ≠ "" ∧ b.data.all Char.isDigit = true := by
      unfold scanStep
      split
      · exact ⟨hbuf, by simp⟩
      · split
        · exact ⟨hbuf, by simp⟩
        · split
          · constructor
            · rfl
            · intro b hb
              change b ∈ (if (String.mk buf).isEmpty then none
                else some (String.mk buf) : Option String).toList at hb
              by_cases hemp : (String.mk buf).isEmpty = true
              · rw [if_pos hemp] at hb
                cases hb
              · rw [if_neg hemp] at hb
                simp only [Option.toList_some, List.mem_singleton] at hb
                subst hb
                exact ⟨fun hbe => hemp (by rw [hbe]; rfl), hbuf⟩
          · split
            · next c hc =>
              constructor
              · change (buf ++ [c]).all Char.isDigit = true
                rw [List.all_append]
                simp only [hbuf, List.all_cons, List.all_nil, Bool.and_true,
                  Bool.true_and]
                exact KEY_MAP_digit _ _ hc
              · intro b hb
                cases hb
            · exact ⟨hbuf, by simp⟩
    have hrec := ih (scanStep buf e).1 hstep.1
    refine ⟨hrec.1, ?_⟩
    intro b hb
    have hb2 : b ∈ (scanStep buf e).2.toList ++
        (runScanner es (scanStep buf e).1).2 := hb
    rcases List.mem_append.mp hb2 with hbl | hbl
    · exact hstep.2 b hbl
    · exact hrec.2 b hbl

/-- C10: every barcode the scanner reader hands to the pipeline is
non-empty and all decimal digits; the buffer is cleared on every Enter
key-down, and an Enter key-down on an empty buffer emits nothing. -/
theorem scanner_emits_digit_barcodes (events : List InputEvent) :
    (∀ b ∈ (runScanner events []).2, b ≠ "" ∧ b.data.all Char.isDigit = true)
    ∧ (∀ (buf : List Char) (e : InputEvent), e.isKey = true →
      e.isKeyDown = true → e.scancode = KEY_ENTER →
      (scanStep buf e).1 = [] ∧ (buf = [] → (scanStep buf e).2 = none)) := by
  refine ⟨(runScanner_inv events [] rfl).2, ?_⟩
  intro buf e hk hkd hsc
  constructor
  · simp [scanStep, hk, hkd, hsc]
  · intro hbuf
    subst hbuf
    simp [scanStep, hk, hkd, hsc]
    rfl

/-- Witness for C10: the event sequence digit-2, digit-3, Enter emits
exactly the barcode "23", which is non-empty and all digits. -/
theorem scanner_emits_digit_barcodes_witness :
    "23" ∈ (runScanner sampleEvents []).2 ∧
      ("23" ≠ "" ∧ "23".data.all Char.isDigit = true) :=
  ⟨by decide, (scanner_emits_digit_barcodes sampleEvents).1 "23" (by decide)⟩
